import Mathlib

/-!
# Verification of the todo-list task/category domain service

Shallow embedding of the authenticated CRUD API layer of the todo-list
application: the `/api/tasks` route (GET, POST), the `/api/categories`
route (GET, POST), the `/api/categories/[id]` route (GET, DELETE), and
the client-side form save handler (`TodoForm.tsx`, `handleSaveTask`).

Modelling conventions:
* MongoDB `ObjectId`s (user ids, record ids) are `Nat`.
* A JavaScript `Date` is a calendar date plus a time of day
  (`DateTime`); `Date` comparison is comparison of the lexicographic
  key, which agrees with epoch-millisecond order on well-formed dates.
* JSON body fields that may be absent are `Option`; the JavaScript
  truthiness test `!s` on a string field is `falsyStr` (absent or
  empty string are both falsy).
* `dueDate` request bodies arrive as `"YYYY-MM-DD"` strings and
  `dueTime` as `"HH:MM"`; the embedding takes them in already-parsed
  form (`PlainDate`, `TimeHM`), matching what `new Date(dueDate)` and
  `dueTime.split(":").map(Number)` produce.
* The identity verifier (`lib/auth`, not part of the service code) is a
  parameter `verify : String → Option Nat`; `none` models the verifier
  failing (throwing), which in every route lands in the generic
  `catch` block.
* Collections are lists; `find` is `List.filter`, `findOne` is
  `List.find?`, `deleteOne` removes the first matching record,
  `insertOne` appends.
-/

namespace Todo

/-- The five-value priority enumeration of a task. -/
inductive Priority where
  | highest
  | high
  | medium
  | low
  | lowest
deriving DecidableEq, Repr

/-- Parsing of a priority string into the enumeration; any other
string is outside the enumeration. -/
def Priority.parse : String → Option Priority
  | "highest" => some .highest
  | "high" => some .high
  | "medium" => some .medium
  | "low" => some .low
  | "lowest" => some .lowest
  | _ => none

/-- A calendar date, as parsed from a `"YYYY-MM-DD"` request field. -/
structure PlainDate where
  year : Nat
  month : Nat
  day : Nat
deriving DecidableEq, Repr

/-- A time of day, as parsed from an `"HH:MM"` request field by
`dueTime.split(":").map(Number)`. -/
structure TimeHM where
  hour : Nat
  minute : Nat
deriving DecidableEq, Repr

/-- A JavaScript `Date` value: calendar date plus time of day. -/
structure DateTime where
  year : Nat
  month : Nat
  day : Nat
  hour : Nat
  minute : Nat
  second : Nat
deriving DecidableEq, Repr

/-- Linearisation of a `DateTime` for comparison; on well-formed dates
(month < 100, day < 100, …) it is monotone in epoch order, so `<` on
keys models JavaScript `Date` comparison. -/
def DateTime.key (d : DateTime) : Nat :=
  ((((d.year * 100 + d.month) * 100 + d.day) * 100 + d.hour) * 100 + d.minute) * 100 + d.second

/-- JavaScript `d.setHours(h, m, s)`: replace the time-of-day fields. -/
def DateTime.setHours (d : DateTime) (h m s : Nat) : DateTime :=
  { d with hour := h, minute := m, second := s }

/-- `new Date("YYYY-MM-DD")`: the calendar date at midnight. -/
def PlainDate.atMidnight (p : PlainDate) : DateTime :=
  ⟨p.year, p.month, p.day, 0, 0, 0⟩

/-- The value of the JavaScript expression
`task.dueDate && new Date(task.dueDate) < currentDate`: when
`task.dueDate` is absent the `&&` yields the falsy stored value itself
(`undefined`/`null`), not the boolean `false`. -/
inductive Overdue where
  | missing
  | val (b : Bool)
deriving DecidableEq, Repr

/-- A stored task record, as built by the creation route.  The POST
route destructures only `title, resume, description, dueDate, dueTime,
priority` from the body, so `categoryId` is never set by creation. -/
structure Task where
  id : Nat
  userId : Nat
  title : String
  resume : String
  description : Option String
  categoryId : Option Nat
  dueDate : Option DateTime
  dueTime : Option TimeHM
  priority : Priority
deriving DecidableEq, Repr

/-- A stored category record. -/
structure Category where
  id : Nat
  userId : Nat
  name : String
  description : Option String
deriving DecidableEq, Repr

/-- The document store: the `tasks` and `categories` collections plus
the id the persistence gateway assigns to the next inserted record. -/
structure Store where
  tasks : List Task
  categories : List Category
  nextId : Nat
deriving DecidableEq, Repr

/-- JavaScript truthiness test `!s` for an optional string field:
absent and empty are both falsy. -/
def falsyStr (s : Option String) : Bool :=
  (s.getD "") == ""

/-- JavaScript `String.prototype.split(' ')` over the characters of the
header: split on single space characters, keeping empty pieces. -/
def splitSpace : List Char → List (List Char)
  | [] => [[]]
  | c :: rest =>
    if c = ' ' then [] :: splitSpace rest
    else
      match splitSpace rest with
      | [] => [[c]]
      | w :: ws => (c :: w) :: ws

/-- `req.headers.get("Authorization")?.split(" ")[1]` followed by the
`if (!token)` truthiness test: the extracted credential, or `none` when
the header is absent, has no second space-separated piece, or that
piece is the empty string. -/
def extractToken (header : Option String) : Option String :=
  match header with
  | none => none
  | some h =>
    match (splitSpace h.data).get? 1 with
    | none => none
    | some w => if w = [] then none else some (String.mk w)

/-- The second whitespace-separated word of a header, following the
spec's words (splitting on any whitespace and discarding empty pieces);
stated only to compare against `extractToken`, which is what the code
does. -/
def specSecondWord (h : String) : Option String :=
  (((h.data.splitOnP fun c => c.isWhitespace).filter fun w => w ≠ []).get? 1).map String.mk

/-- The request body of `POST /api/tasks` (and of the form's payload):
every field optional, in parsed form. -/
structure TaskInput where
  title : Option String
  resume : Option String
  description : Option String
  categoryId : Option Nat
  dueDate : Option PlainDate
  dueTime : Option TimeHM
  priority : Option String
deriving DecidableEq, Repr

/-- The `processedDueDate` computation of the POST handler: absent
`dueDate` leaves it undefined; otherwise `new Date(dueDate)` followed
by `setHours` from the split `dueTime`, or the 23:59 default. -/
def processedDue (body : TaskInput) : Option DateTime :=
  match body.dueDate with
  | none => none
  | some d =>
    match body.dueTime with
    | some t => some ((d.atMidnight).setHours t.hour t.minute 0)
    | none => some ((d.atMidnight).setHours 23 59 0)

/-- Modelled from the spec: `createTask` lives in `models/Task`, which
is not under `src/`.  Spec §3/§4.3: the factory builds the stored
record with `ownerId = userId`; `priority` defaults to `medium` when
not supplied and must otherwise be one of the five enumerated values,
unknown values being rejected with a `ValidationError` (a thrown error,
which the calling route does not handle specially).  The remaining
fields are stored as given.  `categoryId` is `none` because the POST
route does not pass one. -/
def createTask (userId : Nat) (id : Nat) (title resume : String)
    (description : Option String) (dueDate : Option DateTime)
    (dueTime : Option TimeHM) (priority : Option String) : Except String Task :=
  match priority with
  | none => .ok ⟨id, userId, title, resume, description, none, dueDate, dueTime, .medium⟩
  | some s =>
    match Priority.parse s with
    | some p => .ok ⟨id, userId, title, resume, description, none, dueDate, dueTime, p⟩
    | none => .error "ValidationError: priority"

/-- Modelled from the spec: `createCategory` lives in
`models/Category`, which is not under `src/`.  Spec §4.2: persists a
new record with `ownerId = userId`, the given name and optional
description. -/
def createCategory (userId : Nat) (id : Nat) (name : String)
    (description : Option String) : Category :=
  ⟨id, userId, name, description⟩

/-- Removes the first record matching `p`, returning the new list and
the `deletedCount` (0 or 1), as MongoDB `deleteOne` does. -/
def eraseFirstP (p : α → Bool) : List α → List α × Nat
  | [] => ([], 0)
  | x :: rest =>
    if p x then (rest, 1)
    else
      let r := eraseFirstP p rest
      (x :: r.1, r.2)

/-- A task as shaped by the list response: the stored record spread
together with the freshly computed `overdue` value. -/
structure TaskOut where
  task : Task
  overdue : Overdue
deriving DecidableEq, Repr

/-- `task.dueDate && new Date(task.dueDate) < currentDate`. -/
def computeOverdue (dueDate : Option DateTime) (now : DateTime) : Overdue :=
  match dueDate with
  | none => .missing
  | some d => .val (decide (d.key < now.key))

/-- Response of `GET /api/tasks`. -/
structure TasksListResult where
  status : Nat
  success : Bool
  message : Option String
  tasks : List TaskOut
deriving DecidableEq, Repr

/-- `GET /api/tasks` after credential extraction: on a missing token a
401, on a verifier failure the generic catch (500), otherwise the
user's tasks each carrying a freshly computed `overdue`. -/
def GETtasksAuthed (verify : String → Option Nat) (store : Store)
    (token : Option String) (now : DateTime) : TasksListResult :=
  match token with
  | none => ⟨401, false, some "No token provided", []⟩
  | some tok =>
    match verify tok with
    | none => ⟨500, false, some "Internal server error", []⟩
    | some uid =>
      let tasks := store.tasks.filter fun t => t.userId == uid
      ⟨200, true, none, tasks.map fun t => ⟨t, computeOverdue t.dueDate now⟩⟩

/-- `GET /api/tasks` (src/app/api/tasks/route.ts). -/
def GETtasks (verify : String → Option Nat) (store : Store)
    (header : Option String) (now : DateTime) : TasksListResult :=
  GETtasksAuthed verify store (extractToken header) now

/-- Response of `POST /api/tasks`: status, flags and the store after
the request (unchanged unless a record was inserted). -/
structure TaskCreateResult where
  status : Nat
  success : Bool
  message : Option String
  task : Option Task
  store : Store
deriving DecidableEq, Repr

/-- `POST /api/tasks` after credential extraction.  Title and resume
are validated by truthiness; then `processedDueDate` is built: absent
`dueDate` leaves it undefined, otherwise the parsed date at midnight
gets `setHours` from `dueTime` or the 23:59 default.  There is no
validation of `dueTime` without `dueDate` and `categoryId` is not read
from the body.  A `createTask` failure is only caught by the generic
catch (500). -/
def POSTtasksAuthed (verify : String → Option Nat) (store : Store)
    (token : Option String) (body : TaskInput) : TaskCreateResult :=
  match token with
  | none => ⟨401, false, some "No token provided", none, store⟩
  | some tok =>
    match verify tok with
    | none => ⟨500, false, some "Internal server error", none, store⟩
    | some uid =>
      if falsyStr body.title || falsyStr body.resume then
        ⟨400, false, some "Title and resume are required", none, store⟩
      else
        match createTask uid store.nextId (body.title.getD "") (body.resume.getD "")
            body.description (processedDue body) body.dueTime body.priority with
        | .error _ => ⟨500, false, some "Internal server error", none, store⟩
        | .ok t =>
          ⟨201, true, none, some t,
            { store with tasks := store.tasks ++ [t], nextId := store.nextId + 1 }⟩

/-- `POST /api/tasks` (src/app/api/tasks/route.ts). -/
def POSTtasks (verify : String → Option Nat) (store : Store)
    (header : Option String) (body : TaskInput) : TaskCreateResult :=
  POSTtasksAuthed verify store (extractToken header) body

/-- Response of `GET /api/categories`. -/
structure CategoriesListResult where
  status : Nat
  success : Bool
  message : Option String
  categories : List Category
deriving DecidableEq, Repr

/-- `GET /api/categories` after credential extraction (part of
app/api/categories/route.ts): the user's categories. -/
def GETcategoriesAuthed (verify : String → Option Nat) (store : Store)
    (token : Option String) : CategoriesListResult :=
  match token with
  | none => ⟨401, false, some "No token provided", []⟩
  | some tok =>
    match verify tok with
    | none => ⟨500, false, some "Internal server error", []⟩
    | some uid =>
      ⟨200, true, none, store.categories.filter fun c => c.userId == uid⟩

/-- `GET /api/categories`. -/
def GETcategories (verify : String → Option Nat) (store : Store)
    (header : Option String) : CategoriesListResult :=
  GETcategoriesAuthed verify store (extractToken header)

/-- Response of `POST /api/categories`. -/
structure CategoryCreateResult where
  status : Nat
  success : Bool
  message : Option String
  category : Option Category
  store : Store
deriving DecidableEq, Repr

/-- `POST /api/categories` after credential extraction: name required
by truthiness, then the new record is inserted. -/
def POSTcategoriesAuthed (verify : String → Option Nat) (store : Store)
    (token : Option String) (name description : Option String) : CategoryCreateResult :=
  match token with
  | none => ⟨401, false, some "No token provided", none, store⟩
  | some tok =>
    match verify tok with
    | none => ⟨500, false, some "Internal server error", none, store⟩
    | some uid =>
      if falsyStr name then
        ⟨400, false, some "Category name is required", none, store⟩
      else
        let c := createCategory uid store.nextId (name.getD "") description
        ⟨201, true, none, some c,
          { store with categories := store.categories ++ [c], nextId := store.nextId + 1 }⟩

/-- `POST /api/categories`. -/
def POSTcategories (verify : String → Option Nat) (store : Store)
    (header : Option String) (name description : Option String) : CategoryCreateResult :=
  POSTcategoriesAuthed verify store (extractToken header) name description

/-- Response of `GET /api/categories/[id]`. -/
structure CategoryGetResult where
  status : Nat
  success : Bool
  message : Option String
  category : Option Category
deriving DecidableEq, Repr

/-- The 404 response of the category-by-id route: one constant
response for both "no such id" and "belongs to another user". -/
def categoryNotFoundResponse : CategoryGetResult :=
  ⟨404, false, some "Category not found or does not belong to the user", none⟩

/-- `GET /api/categories/[id]` after credential extraction
(src/app/api/categories/[id]/route.ts): `findOne` on id and owner
together, 404 otherwise. -/
def GETcategoryIdAuthed (verify : String → Option Nat) (store : Store)
    (token : Option String) (cid : Nat) : CategoryGetResult :=
  match token with
  | none => ⟨401, false, some "No token provided", none⟩
  | some tok =>
    match verify tok with
    | none => ⟨500, false, some "Internal server error", none⟩
    | some uid =>
      match store.categories.find? fun c => c.id == cid && c.userId == uid with
      | none => categoryNotFoundResponse
      | some c => ⟨200, true, none, some c⟩

/-- `GET /api/categories/[id]`. -/
def GETcategoryId (verify : String → Option Nat) (store : Store)
    (header : Option String) (cid : Nat) : CategoryGetResult :=
  GETcategoryIdAuthed verify store (extractToken header) cid

/-- Response of `DELETE /api/categories/[id]`. -/
structure CategoryDeleteResult where
  status : Nat
  success : Bool
  message : Option String
  store : Store
deriving DecidableEq, Repr

/-- `DELETE /api/categories/[id]` after credential extraction:
`deleteOne` on id and owner together; `deletedCount = 0` yields the
same not-found message as the get route. -/
def DELETEcategoryIdAuthed (verify : String → Option Nat) (store : Store)
    (token : Option String) (cid : Nat) : CategoryDeleteResult :=
  match token with
  | none => ⟨401, false, some "No token provided", store⟩
  | some tok =>
    match verify tok with
    | none => ⟨500, false, some "Internal server error", store⟩
    | some uid =>
      let r := eraseFirstP (fun c => c.id == cid && c.userId == uid) store.categories
      if r.2 = 0 then
        ⟨404, false, some "Category not found or does not belong to the user", store⟩
      else
        ⟨200, true, some "Category deleted successfully", { store with categories := r.1 }⟩

/-- `DELETE /api/categories/[id]`. -/
def DELETEcategoryId (verify : String → Option Nat) (store : Store)
    (header : Option String) (cid : Nat) : CategoryDeleteResult :=
  DELETEcategoryIdAuthed verify store (extractToken header) cid

/-- Errors of the task-by-id service operations. -/
inductive SvcErr where
  | notFound
  | invalid (field : String)
deriving DecidableEq, Repr

/-- Modelled from the spec: the `/api/tasks/[id]` GET route is not
under `src/`.  Spec §4.3/§4.2 pattern: fetch by id and owner together;
absent and other-owner are indistinguishable (`none`, i.e. NotFound). -/
def getTaskSvc (store : Store) (uid tid : Nat) : Option Task :=
  store.tasks.find? fun t => t.id == tid && t.userId == uid

/-- Modelled from the spec: the `/api/tasks/[id]` PUT route is not
under `src/`.  Spec §4.3: NotFound under the ownership-or-absence rule
before validation; then the same validation and composition rules as
create, as a full replace. -/
def updateTaskSvc (store : Store) (uid tid : Nat) (body : TaskInput) : Except SvcErr Store :=
  match store.tasks.find? fun t => t.id == tid && t.userId == uid with
  | none => .error .notFound
  | some _ =>
    if falsyStr body.title then .error (.invalid "title")
    else if falsyStr body.resume then .error (.invalid "resume")
    else if body.dueTime.isSome && body.dueDate.isNone then .error (.invalid "dueDate")
    else
      match createTask uid tid (body.title.getD "") (body.resume.getD "")
          body.description (processedDue body) body.dueTime body.priority with
      | .error _ => .error (.invalid "priority")
      | .ok t =>
        .ok { store with
              tasks := store.tasks.map fun old => if old.id == tid && old.userId == uid then t else old }

/-- Modelled from the spec: the `/api/tasks/[id]` DELETE route is not
under `src/`.  Spec §4.3: ownership-or-absence NotFound rule; removes
the record. -/
def deleteTaskSvc (store : Store) (uid tid : Nat) : Except SvcErr Store :=
  let r := eraseFirstP (fun t => t.id == tid && t.userId == uid) store.tasks
  if r.2 = 0 then .error .notFound
  else .ok { store with tasks := r.1 }

/-- The outcome of the form's save handler: either a non-empty map of
field-tagged errors with no API call made, or a submission. -/
inductive FormOutcome where
  | errors (fields : List String)
  | submit
deriving DecidableEq, Repr

/-- The state of the task form relevant to `handleSaveTask`
(TodoForm.tsx): the text inputs, with `""` for an empty field. -/
structure FormState where
  taskName : String
  resume : String
  dateInput : String
  timeInput : String
deriving DecidableEq, Repr

/-- `handleSaveTask` (TodoForm.tsx): collect field-tagged errors —
missing name, missing resume, and a time input without a date input —
and return without calling the API when any exists; otherwise submit
the payload. -/
def handleSaveTask (f : FormState) : FormOutcome :=
  let newErrors : List String :=
    (if f.taskName == "" then ["taskName"] else []) ++
    (if f.resume == "" then ["resume"] else []) ++
    (if f.timeInput != "" && f.dateInput == "" then ["dateInput"] else [])
  if newErrors.length > 0 then .errors newErrors else .submit

/-- Whether the form outcome is an error outcome carrying a message
tagged to the date field (the `dateInput` error key). -/
def hasDateError : FormOutcome → Bool
  | .errors fields => fields.contains "dateInput"
  | .submit => false

/-! ## Fixtures used by concrete witnesses and counterexamples -/

/-- A verifier accepting every token as user 7. -/
def vOk : String → Option Nat := fun _ => some 7

/-- A verifier failing (throwing) on every token. -/
def vFail : String → Option Nat := fun _ => none

/-- A fixed instant used as "now" in concrete runs. -/
def someNow : DateTime := ⟨2025, 1, 1, 0, 0, 0⟩

/-- The empty store. -/
def emptyStore : Store := ⟨[], [], 0⟩

/-! ## Helper lemmas -/

theorem eraseFirstP_of_all_false (p : α → Bool) (l : List α)
    (h : ∀ x ∈ l, p x = false) : eraseFirstP p l = (l, 0) := by
  induction l with
  | nil => rfl
  | cons x rest ih =>
    have hx : p x = false := h x (List.mem_cons_self x rest)
    simp only [eraseFirstP, hx, Bool.false_eq_true, if_false,
      ih fun y hy => h y (List.mem_cons_of_mem x hy)]

theorem eraseFirstP_countP (p : α → Bool) (l : List α) :
    l.countP p = (eraseFirstP p l).1.countP p + (eraseFirstP p l).2 := by
  induction l with
  | nil => rfl
  | cons x rest ih =>
    by_cases hx : p x = true
    · simp only [eraseFirstP, hx, if_true, List.countP_cons_of_pos _ _ hx]
    · have hx' : p x = false := by simpa using hx
      simp only [eraseFirstP, hx', Bool.false_eq_true, if_false]
      rw [List.countP_cons_of_neg _ _ hx, List.countP_cons_of_neg _ _ hx]
      exact ih

theorem splitSpace_no_space (w : List Char) (hw : ' ' ∉ w) :
    splitSpace w = [w] := by
  induction w with
  | nil => rfl
  | cons c cs ih =>
    have hc : ¬(c = ' ') := fun h => hw (h ▸ List.mem_cons_self c cs)
    have hcs : ' ' ∉ cs := fun h => hw (List.mem_cons_of_mem c h)
    simp only [splitSpace, hc, if_false, ih hcs]

theorem splitSpace_append_space (x rest : List Char) (hx : ' ' ∉ x) :
    splitSpace (x ++ ' ' :: rest) = x :: splitSpace rest := by
  induction x with
  | nil => simp [splitSpace]
  | cons c cs ih =>
    have hc : ¬(c = ' ') := fun h => hx (h ▸ List.mem_cons_self c cs)
    have hcs : ' ' ∉ cs := fun h => hx (List.mem_cons_of_mem c h)
    simp only [List.cons_append, splitSpace, hc, if_false, List.append_eq, ih hcs]

theorem extractToken_mk (l : List Char) :
    extractToken (some (String.mk l))
      = match (splitSpace l).get? 1 with
        | none => none
        | some w => if w = [] then none else some (String.mk w) := rfl

theorem extractToken_scheme_indep (x y w : List Char) (hx : ' ' ∉ x) (hy : ' ' ∉ y) :
    extractToken (some (String.mk (x ++ ' ' :: w)))
      = extractToken (some (String.mk (y ++ ' ' :: w))) := by
  rw [extractToken_mk, extractToken_mk,
    splitSpace_append_space x w hx, splitSpace_append_space y w hy]
  rfl

theorem extractToken_single_word (w : List Char) (hw : ' ' ∉ w) :
    extractToken (some (String.mk w)) = none := by
  rw [extractToken_mk, splitSpace_no_space w hw]
  rfl

/-! ## Claim theorems -/

/-- C5: the claim says a missing credential header and a failed
verification both produce the same authentication-required 401.  In
the code only the missing header does; a verifier failure reaches the
generic catch and produces a 500, so the claim is false. -/
theorem C5_counterexample :
    (GETtasks vFail emptyStore (some "Bearer bad") someNow).status = 500 ∧
    (GETtasks vFail emptyStore (some "Bearer bad") someNow).status ≠ 401 := by
  decide

/-- C5 (amended): on every route — tasks list and create, categories
list and create, category get and delete — a request with a missing or
unusable Authorization header is answered 401 "No token provided" with
the store untouched; a request whose credential fails verification is
answered 500 "Internal server error" (the route's generic catch), also
with the store untouched — not the same 401. -/
theorem C5_unauthenticated_handling (verify : String → Option Nat) (store : Store)
    (header : Option String) (now : DateTime) (body : TaskInput)
    (name description : Option String) (cid : Nat) :
    (extractToken header = none →
      GETtasks verify store header now = ⟨401, false, some "No token provided", []⟩ ∧
      POSTtasks verify store header body
        = ⟨401, false, some "No token provided", none, store⟩ ∧
      GETcategories verify store header = ⟨401, false, some "No token provided", []⟩ ∧
      POSTcategories verify store header name description
        = ⟨401, false, some "No token provided", none, store⟩ ∧
      GETcategoryId verify store header cid = ⟨401, false, some "No token provided", none⟩ ∧
      DELETEcategoryId verify store header cid
        = ⟨401, false, some "No token provided", store⟩) ∧
    (∀ tok, extractToken header = some tok → verify tok = none →
      GETtasks verify store header now = ⟨500, false, some "Internal server error", []⟩ ∧
      POSTtasks verify store header body
        = ⟨500, false, some "Internal server error", none, store⟩ ∧
      GETcategories verify store header = ⟨500, false, some "Internal server error", []⟩ ∧
      POSTcategories verify store header name description
        = ⟨500, false, some "Internal server error", none, store⟩ ∧
      GETcategoryId verify store header cid
        = ⟨500, false, some "Internal server error", none⟩ ∧
      DELETEcategoryId verify store header cid
        = ⟨500, false, some "Internal server error", store⟩) := by
  constructor
  · intro h
    simp [GETtasks, GETtasksAuthed, POSTtasks, POSTtasksAuthed,
      GETcategories, GETcategoriesAuthed, POSTcategories, POSTcategoriesAuthed,
      GETcategoryId, GETcategoryIdAuthed, DELETEcategoryId, DELETEcategoryIdAuthed, h]
  · intro tok h hv
    simp [GETtasks, GETtasksAuthed, POSTtasks, POSTtasksAuthed,
      GETcategories, GETcategoriesAuthed, POSTcategories, POSTcategoriesAuthed,
      GETcategoryId, GETcategoryIdAuthed, DELETEcategoryId, DELETEcategoryIdAuthed, h, hv]

theorem C5_unauthenticated_handling_witness :
    (GETtasks vOk emptyStore none someNow = ⟨401, false, some "No token provided", []⟩ ∧
      POSTtasks vOk emptyStore none ⟨none, none, none, none, none, none, none⟩
        = ⟨401, false, some "No token provided", none, emptyStore⟩ ∧
      GETcategories vOk emptyStore none = ⟨401, false, some "No token provided", []⟩ ∧
      POSTcategories vOk emptyStore none (some "Work") none
        = ⟨401, false, some "No token provided", none, emptyStore⟩ ∧
      GETcategoryId vOk emptyStore none 2 = ⟨401, false, some "No token provided", none⟩ ∧
      DELETEcategoryId vOk emptyStore none 2
        = ⟨401, false, some "No token provided", emptyStore⟩) ∧
    (GETtasks vFail emptyStore (some "Bearer bad") someNow
        = ⟨500, false, some "Internal server error", []⟩ ∧
      POSTtasks vFail emptyStore (some "Bearer bad") ⟨none, none, none, none, none, none, none⟩
        = ⟨500, false, some "Internal server error", none, emptyStore⟩ ∧
      GETcategories vFail emptyStore (some "Bearer bad")
        = ⟨500, false, some "Internal server error", []⟩ ∧
      POSTcategories vFail emptyStore (some "Bearer bad") (some "Work") none
        = ⟨500, false, some "Internal server error", none, emptyStore⟩ ∧
      GETcategoryId vFail emptyStore (some "Bearer bad") 2
        = ⟨500, false, some "Internal server error", none⟩ ∧
      DELETEcategoryId vFail emptyStore (some "Bearer bad") 2
        = ⟨500, false, some "Internal server error", emptyStore⟩) :=
  ⟨(C5_unauthenticated_handling vOk emptyStore none someNow _ (some "Work") none 2).1 rfl,
   (C5_unauthenticated_handling vFail emptyStore (some "Bearer bad") someNow _
     (some "Work") none 2).2 "bad" (by decide) rfl⟩

/-- C8: a creation request whose title or resume is absent or empty is
answered 400 with the message naming both fields, and the store is
returned unchanged — the validation happens before the insert. -/
theorem C8_title_resume_required (verify : String → Option Nat) (store : Store)
    (header : Option String) (body : TaskInput) (tok : String) (uid : Nat)
    (hx : extractToken header = some tok) (hv : verify tok = some uid)
    (hbad : falsyStr body.title = true ∨ falsyStr body.resume = true) :
    POSTtasks verify store header body
      = ⟨400, false, some "Title and resume are required", none, store⟩ := by
  unfold POSTtasks POSTtasksAuthed
  rw [hx]
  simp only [hv]
  have hor : (falsyStr body.title || falsyStr body.resume) = true := by
    rcases hbad with h | h <;> simp [h]
  simp [hor]

theorem C8_title_resume_required_witness :
    POSTtasks vOk emptyStore (some "Bearer x")
        ⟨some "", some "r", none, none, none, none, none⟩
      = ⟨400, false, some "Title and resume are required", none, emptyStore⟩ :=
  C8_title_resume_required vOk emptyStore (some "Bearer x") _ "x" 7
    (by decide) rfl (Or.inl (by decide))

/-- C10: the claim says the credential is the second
whitespace-separated word of the header.  The code splits on single
space characters and keeps empty pieces, so a header with two spaces
has `""` at index 1 and is rejected as missing, although its second
whitespace-separated word is a real token that the claim says would be
processed (as it is with a single space). -/
theorem C10_counterexample :
    specSecondWord "Bearer  tok" = some "tok" ∧
    extractToken (some "Bearer  tok") = none ∧
    (GETtasks vOk emptyStore (some "Bearer  tok") someNow).status = 401 ∧
    (GETtasks vOk emptyStore (some "Bearer tok") someNow).status = 200 := by
  decide

/-- C10 (amended): the credential is element 1 of the header split on
single space characters, with no check of the scheme word: any
space-free first word behaves exactly like `Bearer`.  A header that is
a single space-free word yields no credential and is rejected 401, and
so is a header whose element 1 is empty (double space, or tab-joined,
since tabs are not split on). -/
theorem C10_token_extraction :
    (∀ x y w : List Char, ' ' ∉ x → ' ' ∉ y →
      extractToken (some (String.mk (x ++ ' ' :: w)))
        = extractToken (some (String.mk (y ++ ' ' :: w)))) ∧
    (∀ x y w : List Char, ' ' ∉ x → ' ' ∉ y →
      ∀ (verify : String → Option Nat) (store : Store) (now : DateTime),
        GETtasks verify store (some (String.mk (x ++ ' ' :: w))) now
          = GETtasks verify store (some (String.mk (y ++ ' ' :: w))) now) ∧
    (∀ w : List Char, ' ' ∉ w → extractToken (some (String.mk w)) = none) ∧
    (∀ w : List Char, ' ' ∉ w →
      ∀ (verify : String → Option Nat) (store : Store) (now : DateTime),
        (GETtasks verify store (some (String.mk w)) now).status = 401) := by
  refine ⟨extractToken_scheme_indep, ?_, extractToken_single_word, ?_⟩
  · intro x y w hx hy verify store now
    unfold GETtasks
    rw [extractToken_scheme_indep x y w hx hy]
  · intro w hw verify store now
    unfold GETtasks
    rw [extractToken_single_word w hw]
    rfl

theorem C10_token_extraction_witness :
    extractToken (some (String.mk ("Basic".data ++ ' ' :: "tok".data)))
      = extractToken (some (String.mk ("Bearer".data ++ ' ' :: "tok".data))) ∧
    extractToken (some (String.mk "Bearertok".data)) = none ∧
    (GETtasks vOk emptyStore (some (String.mk "Bearer".data)) someNow).status = 401 :=
  ⟨C10_token_extraction.1 _ _ _ (by decide) (by decide),
   C10_token_extraction.2.2.1 _ (by decide),
   C10_token_extraction.2.2.2 _ (by decide) vOk emptyStore someNow⟩

/-- A task of user 7 with no due date, with the store holding it. -/
def sampleTask : Task := ⟨0, 7, "t", "r", none, none, none, none, .medium⟩

/-- A store holding exactly `sampleTask`. -/
def c4store : Store := ⟨[sampleTask], [], 1⟩

/-- C4: the claim says `overdue` equals the boolean value of
"dueDate is set and before now", in particular `false` when there is
no dueDate.  The code computes `task.dueDate && new Date(...) < now`,
so with no dueDate the field is the falsy dueDate value itself
(undefined/null, `Overdue.missing` here), not the boolean `false`. -/
theorem C4_counterexample :
    (GETtasks vOk c4store (some "Bearer x") someNow).tasks
      = [⟨sampleTask, .missing⟩] ∧
    Overdue.missing ≠ Overdue.val false := by
  decide

/-- C4 (amended): every task returned by the list call is a stored
task of the authenticated user; its `overdue` is a truthy boolean
exactly when the stored dueDate is set and earlier than the time of
the call, and is the non-boolean falsy value (`missing`) when the task
has no dueDate.  `overdue` is computed per call and never stored: the
stored record type has no such field and the list route returns no
modified store. -/
theorem C4_overdue_derivation (verify : String → Option Nat) (store : Store)
    (header : Option String) (tok : String) (uid : Nat) (now : DateTime)
    (hx : extractToken header = some tok) (hv : verify tok = some uid) :
    ∀ o ∈ (GETtasks verify store header now).tasks,
      o.task ∈ store.tasks ∧ o.task.userId = uid ∧
      (o.task.dueDate = none → o.overdue = .missing) ∧
      (o.overdue = .val true ↔ ∃ d, o.task.dueDate = some d ∧ d.key < now.key) := by
  intro o ho
  unfold GETtasks GETtasksAuthed at ho
  rw [hx] at ho
  simp only [hv] at ho
  rcases List.mem_map.1 ho with ⟨t, htmem, rfl⟩
  rcases List.mem_filter.1 htmem with ⟨htmem', hteq⟩
  refine ⟨htmem', by simpa using hteq, ?_, ?_⟩
  · intro hdd
    have hdd' : t.dueDate = none := hdd
    show computeOverdue t.dueDate now = .missing
    simp [computeOverdue, hdd']
  · show computeOverdue t.dueDate now = .val true ↔ ∃ d, t.dueDate = some d ∧ d.key < now.key
    cases hdd : t.dueDate with
    | none => simp [computeOverdue, hdd]
    | some d => simp [computeOverdue, hdd]

theorem C4_overdue_derivation_witness :
    sampleTask ∈ c4store.tasks ∧ sampleTask.userId = 7 ∧
    (TaskOut.mk sampleTask Overdue.missing).overdue = Overdue.missing :=
  have h := C4_overdue_derivation vOk c4store (some "Bearer x") "x" 7 someNow (by decide) rfl
    ⟨sampleTask, Overdue.missing⟩ (by decide)
  ⟨h.1, h.2.1, h.2.2.1 rfl⟩

theorem createTask_priority_none (uid id : Nat) (ti re : String) (de : Option String)
    (dd : Option DateTime) (dt : Option TimeHM) :
    createTask uid id ti re de dd dt none = .ok ⟨id, uid, ti, re, de, none, dd, dt, .medium⟩ := rfl

theorem createTask_priority_parsed (uid id : Nat) (ti re : String) (de : Option String)
    (dd : Option DateTime) (dt : Option TimeHM) (s : String) (p : Priority)
    (hps : Priority.parse s = some p) :
    createTask uid id ti re de dd dt (some s) = .ok ⟨id, uid, ti, re, de, none, dd, dt, p⟩ := by
  simp [createTask, hps]

theorem createTask_priority_bad (uid id : Nat) (ti re : String) (de : Option String)
    (dd : Option DateTime) (dt : Option TimeHM) (s : String)
    (hps : Priority.parse s = none) :
    createTask uid id ti re de dd dt (some s) = .error "ValidationError: priority" := by
  simp [createTask, hps]

theorem POSTtasks_ok_eq (verify : String → Option Nat) (store : Store)
    (header : Option String) (body : TaskInput) (tok : String) (uid : Nat) (t : Task)
    (hx : extractToken header = some tok) (hv : verify tok = some uid)
    (ht : falsyStr body.title = false) (hr : falsyStr body.resume = false)
    (hc : createTask uid store.nextId (body.title.getD "") (body.resume.getD "")
        body.description (processedDue body) body.dueTime body.priority = .ok t) :
    POSTtasks verify store header body
      = ⟨201, true, none, some t,
          { store with tasks := store.tasks ++ [t], nextId := store.nextId + 1 }⟩ := by
  unfold POSTtasks POSTtasksAuthed
  rw [hx]
  simp only [hv, ht, hr, Bool.or_self, Bool.false_eq_true, if_false, hc]

theorem POSTtasks_error_eq (verify : String → Option Nat) (store : Store)
    (header : Option String) (body : TaskInput) (tok : String) (uid : Nat) (e : String)
    (hx : extractToken header = some tok) (hv : verify tok = some uid)
    (ht : falsyStr body.title = false) (hr : falsyStr body.resume = false)
    (hc : createTask uid store.nextId (body.title.getD "") (body.resume.getD "")
        body.description (processedDue body) body.dueTime body.priority = .error e) :
    POSTtasks verify store header body
      = ⟨500, false, some "Internal server error", none, store⟩ := by
  unfold POSTtasks POSTtasksAuthed
  rw [hx]
  simp only [hv, ht, hr, Bool.or_self, Bool.false_eq_true, if_false, hc]

theorem POSTtasks_ok_record (verify : String → Option Nat) (store : Store)
    (header : Option String) (body : TaskInput) (tok : String) (uid : Nat)
    (hx : extractToken header = some tok) (hv : verify tok = some uid)
    (ht : falsyStr body.title = false) (hr : falsyStr body.resume = false)
    (hp : body.priority = none ∨ ∃ s p, body.priority = some s ∧ Priority.parse s = some p) :
    ∃ pr, POSTtasks verify store header body
      = ⟨201, true, none,
          some ⟨store.nextId, uid, body.title.getD "", body.resume.getD "", body.description,
            none, processedDue body, body.dueTime, pr⟩,
          { store with
            tasks := store.tasks ++
              [⟨store.nextId, uid, body.title.getD "", body.resume.getD "", body.description,
                none, processedDue body, body.dueTime, pr⟩],
            nextId := store.nextId + 1 }⟩ := by
  rcases hp with hn | ⟨s, p, hs, hps⟩
  · refine ⟨.medium, POSTtasks_ok_eq verify store header body tok uid _ hx hv ht hr ?_⟩
    rw [hn]
    exact createTask_priority_none _ _ _ _ _ _ _
  · refine ⟨p, POSTtasks_ok_eq verify store header body tok uid _ hx hv ht hr ?_⟩
    rw [hs]
    exact createTask_priority_parsed _ _ _ _ _ _ _ s p hps

/-- C2: under an authenticated, validated creation, the stored due
instant is the supplied calendar date carrying the supplied HH:MM
time-of-day when `dueTime` is present, the same date at 23:59:00 when
`dueTime` is absent, and no due instant at all when `dueDate` is
absent; the stored record is exactly the one appended to the tasks
collection. -/
theorem C2_due_instant_composition (verify : String → Option Nat) (store : Store)
    (header : Option String) (body : TaskInput) (tok : String) (uid : Nat)
    (hx : extractToken header = some tok) (hv : verify tok = some uid)
    (ht : falsyStr body.title = false) (hr : falsyStr body.resume = false)
    (hp : body.priority = none ∨ ∃ s p, body.priority = some s ∧ Priority.parse s = some p) :
    (POSTtasks verify store header body).status = 201 ∧
    (∀ d t, body.dueDate = some d → body.dueTime = some t →
      ((POSTtasks verify store header body).task).map Task.dueDate
        = some (some ⟨d.year, d.month, d.day, t.hour, t.minute, 0⟩)) ∧
    (∀ d, body.dueDate = some d → body.dueTime = none →
      ((POSTtasks verify store header body).task).map Task.dueDate
        = some (some ⟨d.year, d.month, d.day, 23, 59, 0⟩)) ∧
    (body.dueDate = none →
      ((POSTtasks verify store header body).task).map Task.dueDate = some none) ∧
    (POSTtasks verify store header body).store.tasks
      = store.tasks ++ Option.toList ((POSTtasks verify store header body).task) := by
  obtain ⟨pr, hpost⟩ := POSTtasks_ok_record verify store header body tok uid hx hv ht hr hp
  rw [hpost]
  refine ⟨rfl, ?_, ?_, ?_, rfl⟩
  · intro d t hd htm
    simp [processedDue, hd, htm, PlainDate.atMidnight, DateTime.setHours]
  · intro d hd htm
    simp [processedDue, hd, htm, PlainDate.atMidnight, DateTime.setHours]
  · intro hd
    simp [processedDue, hd]

/-- The creation body of the C2 witness run: due 2025-01-10, 14:30. -/
def c2body : TaskInput := ⟨some "a", some "b", none, none, some ⟨2025, 1, 10⟩, some ⟨14, 30⟩, none⟩

theorem C2_due_instant_composition_witness :
    (POSTtasks vOk emptyStore (some "Bearer x") c2body).status = 201 ∧
    ((POSTtasks vOk emptyStore (some "Bearer x") c2body).task).map Task.dueDate
      = some (some ⟨2025, 1, 10, 14, 30, 0⟩) :=
  have h := C2_due_instant_composition vOk emptyStore (some "Bearer x") c2body "x" 7
    (by decide) rfl (by decide) (by decide) (Or.inl rfl)
  ⟨h.1, h.2.1 ⟨2025, 1, 10⟩ ⟨14, 30⟩ rfl rfl⟩

/-- C3: the claim says a creation request with `dueTime` present and
`dueDate` absent fails with a ValidationError and nothing is
persisted.  The server route performs no such check: the request below
is answered 201 and the record (with a dueTime but no due instant) is
persisted. -/
theorem C3_counterexample :
    (POSTtasks vOk emptyStore (some "Bearer x")
        ⟨some "a", some "b", none, none, none, some ⟨14, 30⟩, none⟩).status = 201 ∧
    (POSTtasks vOk emptyStore (some "Bearer x")
        ⟨some "a", some "b", none, none, none, some ⟨14, 30⟩, none⟩).status ≠ 400 ∧
    (POSTtasks vOk emptyStore (some "Bearer x")
        ⟨some "a", some "b", none, none, none, some ⟨14, 30⟩, none⟩).store.tasks
      = [⟨0, 7, "a", "b", none, none, none, some ⟨14, 30⟩, .medium⟩] := by
  decide

/-- C3 (amended): the time-without-date rule is enforced only
client-side: the form's save handler tags an error to the date field
and makes no API call, while the server creation route accepts such a
request (201) and persists the record with the dueTime but no due
instant. -/
theorem C3_time_without_date (f : FormState)
    (hT : f.timeInput ≠ "") (hD : f.dateInput = "") :
    (hasDateError (handleSaveTask f) = true ∧ handleSaveTask f ≠ .submit) ∧
    (∀ (verify : String → Option Nat) (store : Store) (header : Option String)
        (body : TaskInput) (tok : String) (uid : Nat),
      extractToken header = some tok → verify tok = some uid →
      falsyStr body.title = false → falsyStr body.resume = false →
      body.dueDate = none → body.priority = none →
      (POSTtasks verify store header body).status = 201 ∧
      ((POSTtasks verify store header body).task).map Task.dueDate = some none ∧
      ((POSTtasks verify store header body).task).map Task.dueTime = some body.dueTime ∧
      (POSTtasks verify store header body).store.tasks
        = store.tasks ++ Option.toList ((POSTtasks verify store header body).task)) := by
  constructor
  · have hcond : (f.timeInput != "" && f.dateInput == "") = true := by
      simp [hT, hD]
    cases h1 : (f.taskName == "") <;> cases h2 : (f.resume == "") <;>
      constructor <;> simp [handleSaveTask, hasDateError, h1, h2, hcond]
  · intro verify store header body tok uid hx hv htl hrs hd hpn
    obtain ⟨pr, hpost⟩ := POSTtasks_ok_record verify store header body tok uid hx hv htl hrs
      (Or.inl hpn)
    rw [hpost]
    refine ⟨rfl, ?_, rfl, rfl⟩
    simp [processedDue, hd]

theorem C3_time_without_date_witness :
    (hasDateError (handleSaveTask ⟨"a", "b", "", "14:30"⟩) = true ∧
      handleSaveTask ⟨"a", "b", "", "14:30"⟩ ≠ .submit) ∧
    ((POSTtasks vOk emptyStore (some "Bearer x")
        ⟨some "a", some "b", none, none, none, some ⟨14, 30⟩, none⟩).status = 201 ∧
      ((POSTtasks vOk emptyStore (some "Bearer x")
        ⟨some "a", some "b", none, none, none, some ⟨14, 30⟩, none⟩).task).map Task.dueDate
        = some none ∧
      ((POSTtasks vOk emptyStore (some "Bearer x")
        ⟨some "a", some "b", none, none, none, some ⟨14, 30⟩, none⟩).task).map Task.dueTime
        = some (some ⟨14, 30⟩) ∧
      (POSTtasks vOk emptyStore (some "Bearer x")
        ⟨some "a", some "b", none, none, none, some ⟨14, 30⟩, none⟩).store.tasks
        = emptyStore.tasks ++ Option.toList ((POSTtasks vOk emptyStore (some "Bearer x")
            ⟨some "a", some "b", none, none, none, some ⟨14, 30⟩, none⟩).task)) :=
  have h := C3_time_without_date ⟨"a", "b", "", "14:30"⟩ (by decide) rfl
  ⟨h.1, h.2 vOk emptyStore (some "Bearer x")
    ⟨some "a", some "b", none, none, none, some ⟨14, 30⟩, none⟩ "x" 7
    (by decide) rfl (by decide) (by decide) rfl rfl⟩

/-- The store after creating category "Work" for user 7. -/
def c6store1 : Store := (POSTcategories vOk emptyStore (some "Bearer x") (some "Work") none).store

/-- Then creating a task whose body references the category's id 0. -/
def c6res2 : TaskCreateResult :=
  POSTtasks vOk c6store1 (some "Bearer x") ⟨some "Report", some "r", none, some 0, none, none, none⟩

/-- Then deleting the category. -/
def c6res3 : CategoryDeleteResult := DELETEcategoryId vOk c6res2.store (some "Bearer x") 0

/-- C6: the claim's scenario says a task created referencing the
category's id still returns that id, dangling, after the category is
deleted.  The scenario runs: the deletion succeeds and the task is
unchanged, but the fetched `categoryId` is null, not the referenced
id, because the creation route never stored the body's `categoryId`. -/
theorem C6_counterexample :
    c6res3.status = 200 ∧
    (GETtasks vOk c6res3.store (some "Bearer x") someNow).tasks.map (fun o => o.task.categoryId)
      = [none] ∧
    (none : Option Nat) ≠ some 0 := by
  decide

/-- C6 (amended): deleting a category never touches the tasks
collection — every task record, dangling reference or not, is exactly
as before, whatever the outcome of the deletion.  But the creation
route ignores the body's `categoryId`, so a task created through it
stores `categoryId` null and still returns null (unchanged) after the
deletion, rather than the referenced id. -/
theorem C6_no_cascading_delete :
    (∀ (verify : String → Option Nat) (store : Store) (header : Option String) (cid : Nat),
      (DELETEcategoryId verify store header cid).store.tasks = store.tasks) ∧
    (∀ (verify : String → Option Nat) (store : Store) (header : Option String)
        (body : TaskInput) (tok : String) (uid : Nat),
      extractToken header = some tok → verify tok = some uid →
      falsyStr body.title = false → falsyStr body.resume = false →
      (body.priority = none ∨ ∃ s p, body.priority = some s ∧ Priority.parse s = some p) →
      ((POSTtasks verify store header body).task).map Task.categoryId = some none) := by
  constructor
  · intro verify store header cid
    unfold DELETEcategoryId DELETEcategoryIdAuthed
    split
    · rfl
    · split
      · rfl
      · dsimp only
        split
        · rfl
        · rfl
  · intro verify store header body tok uid hx hv htl hrs hp
    obtain ⟨pr, hpost⟩ := POSTtasks_ok_record verify store header body tok uid hx hv htl hrs hp
    rw [hpost]
    rfl

theorem C6_no_cascading_delete_witness :
    (DELETEcategoryId vOk c6res2.store (some "Bearer x") 0).store.tasks = c6res2.store.tasks ∧
    ((POSTtasks vOk c6store1 (some "Bearer x")
        ⟨some "Report", some "r", none, some 0, none, none, none⟩).task).map Task.categoryId
      = some none :=
  ⟨C6_no_cascading_delete.1 vOk c6res2.store (some "Bearer x") 0,
   C6_no_cascading_delete.2 vOk c6store1 (some "Bearer x")
     ⟨some "Report", some "r", none, some 0, none, none, none⟩ "x" 7
     (by decide) rfl (by decide) (by decide) (Or.inl rfl)⟩

/-- C7: the claim says a creation supplying a priority outside the
enumeration fails with a ValidationError (a field-tagged 400).  The
rejection is thrown inside the task factory and the route has no
handler for it, so the response is the generic 500, not a 400. -/
theorem C7_counterexample :
    POSTtasks vOk emptyStore (some "Bearer x")
        ⟨some "a", some "b", none, none, none, none, some "urgent"⟩
      = ⟨500, false, some "Internal server error", none, emptyStore⟩ ∧
    (500 : Nat) ≠ 400 := by
  decide

/-- C7 (amended): a valid creation returns a priority in the five-value
enumeration (by the type of the `priority` field), equal to `medium`
when the input omitted priority and to the parsed value otherwise; a
creation supplying a priority outside the enumeration fails, but as
the route's generic 500 internal error with nothing persisted, not as
a field-tagged 400 ValidationError. -/
theorem C7_priority_handling (verify : String → Option Nat) (store : Store)
    (header : Option String) (body : TaskInput) (tok : String) (uid : Nat)
    (hx : extractToken header = some tok) (hv : verify tok = some uid)
    (ht : falsyStr body.title = false) (hr : falsyStr body.resume = false) :
    (body.priority = none →
      (POSTtasks verify store header body).status = 201 ∧
      ((POSTtasks verify store header body).task).map Task.priority = some .medium) ∧
    (∀ s p, body.priority = some s → Priority.parse s = some p →
      (POSTtasks verify store header body).status = 201 ∧
      ((POSTtasks verify store header body).task).map Task.priority = some p) ∧
    (∀ s, body.priority = some s → Priority.parse s = none →
      POSTtasks verify store header body
        = ⟨500, false, some "Internal server error", none, store⟩) := by
  refine ⟨?_, ?_, ?_⟩
  · intro hn
    have hc := createTask_priority_none uid store.nextId (body.title.getD "")
      (body.resume.getD "") body.description (processedDue body) body.dueTime
    rw [← hn] at hc
    rw [POSTtasks_ok_eq verify store header body tok uid _ hx hv ht hr hc]
    exact ⟨rfl, rfl⟩
  · intro s p hs hps
    have hc := createTask_priority_parsed uid store.nextId (body.title.getD "")
      (body.resume.getD "") body.description (processedDue body) body.dueTime s p hps
    rw [← hs] at hc
    rw [POSTtasks_ok_eq verify store header body tok uid _ hx hv ht hr hc]
    exact ⟨rfl, rfl⟩
  · intro s hs hps
    have hc := createTask_priority_bad uid store.nextId (body.title.getD "")
      (body.resume.getD "") body.description (processedDue body) body.dueTime s hps
    rw [← hs] at hc
    exact POSTtasks_error_eq verify store header body tok uid _ hx hv ht hr hc

theorem C7_priority_handling_witness :
    ((POSTtasks vOk emptyStore (some "Bearer x")
        ⟨some "a", some "b", none, none, none, none, none⟩).status = 201 ∧
      ((POSTtasks vOk emptyStore (some "Bearer x")
        ⟨some "a", some "b", none, none, none, none, none⟩).task).map Task.priority
        = some .medium) ∧
    POSTtasks vOk emptyStore (some "Bearer x")
        ⟨some "a", some "b", none, none, none, none, some "urgent"⟩
      = ⟨500, false, some "Internal server error", none, emptyStore⟩ :=
  ⟨(C7_priority_handling vOk emptyStore (some "Bearer x")
      ⟨some "a", some "b", none, none, none, none, none⟩ "x" 7
      (by decide) rfl (by decide) (by decide)).1 rfl,
   (C7_priority_handling vOk emptyStore (some "Bearer x")
      ⟨some "a", some "b", none, none, none, none, some "urgent"⟩ "x" 7
      (by decide) rfl (by decide) (by decide)).2.2 "urgent" rfl rfl⟩

theorem DELETEcategoryId_eq (verify : String → Option Nat) (store : Store)
    (header : Option String) (cid : Nat) (tok : String) (uid : Nat)
    (hx : extractToken header = some tok) (hv : verify tok = some uid) :
    DELETEcategoryId verify store header cid
      = if (eraseFirstP (fun c => c.id == cid && c.userId == uid) store.categories).2 = 0
        then ⟨404, false, some "Category not found or does not belong to the user", store⟩
        else ⟨200, true, some "Category deleted successfully",
          { store with
            categories :=
              (eraseFirstP (fun c => c.id == cid && c.userId == uid) store.categories).1 }⟩ := by
  unfold DELETEcategoryId DELETEcategoryIdAuthed
  rw [hx]
  simp only [hv]

/-- C9: deleting an id with no matching owned record — in particular
repeating a delete after it succeeded — answers 404 with the same
not-found message and leaves the store exactly as it was, rather than
succeeding or crashing.  The count hypothesis is MongoDB's uniqueness
of `_id` (at most one record matches id-and-owner). -/
theorem C9_delete_idempotence (verify : String → Option Nat) (store : Store)
    (header : Option String) (cid : Nat) (tok : String) (uid : Nat)
    (hx : extractToken header = some tok) (hv : verify tok = some uid) :
    ((∀ c ∈ store.categories, (c.id == cid && c.userId == uid) = false) →
      DELETEcategoryId verify store header cid
        = ⟨404, false, some "Category not found or does not belong to the user", store⟩) ∧
    (store.categories.countP (fun c => c.id == cid && c.userId == uid) ≤ 1 →
      (DELETEcategoryId verify store header cid).status = 200 →
      DELETEcategoryId verify ((DELETEcategoryId verify store header cid).store) header cid
        = ⟨404, false, some "Category not found or does not belong to the user",
            (DELETEcategoryId verify store header cid).store⟩) := by
  constructor
  · intro hall
    rw [DELETEcategoryId_eq verify store header cid tok uid hx hv,
      eraseFirstP_of_all_false _ _ hall]
    rfl
  · intro hcount h200
    rw [DELETEcategoryId_eq verify store header cid tok uid hx hv] at h200 ⊢
    by_cases hz : (eraseFirstP (fun c => c.id == cid && c.userId == uid) store.categories).2 = 0
    · rw [if_pos hz] at h200
      simp at h200
    · rw [if_neg hz]
      rw [DELETEcategoryId_eq verify _ header cid tok uid hx hv]
      have hcnt := eraseFirstP_countP (fun c => c.id == cid && c.userId == uid) store.categories
      have hr2 : 1 ≤ (eraseFirstP (fun c => c.id == cid && c.userId == uid) store.categories).2 :=
        Nat.one_le_iff_ne_zero.2 hz
      have hzero :
          (eraseFirstP (fun c => c.id == cid && c.userId == uid) store.categories).1.countP
            (fun c => c.id == cid && c.userId == uid) = 0 := by
        omega
      have hall :
          ∀ c ∈ (eraseFirstP (fun c => c.id == cid && c.userId == uid) store.categories).1,
            (c.id == cid && c.userId == uid) = false := by
        intro c hcm
        simpa using List.countP_eq_zero.1 hzero c hcm
      dsimp only
      rw [eraseFirstP_of_all_false _ _ hall]
      rfl

/-- A store of user 7 holding one category, id 2. -/
def c9store : Store := ⟨[], [⟨2, 7, "Work", none⟩], 3⟩

theorem C9_delete_idempotence_witness :
    DELETEcategoryId vOk c9store (some "Bearer x") 5
      = ⟨404, false, some "Category not found or does not belong to the user", c9store⟩ ∧
    DELETEcategoryId vOk ((DELETEcategoryId vOk c9store (some "Bearer x") 2).store)
        (some "Bearer x") 2
      = ⟨404, false, some "Category not found or does not belong to the user",
          (DELETEcategoryId vOk c9store (some "Bearer x") 2).store⟩ :=
  ⟨(C9_delete_idempotence vOk c9store (some "Bearer x") 5 "x" 7 (by decide) rfl).1 (by decide),
   (C9_delete_idempotence vOk c9store (some "Bearer x") 2 "x" 7 (by decide) rfl).2
     (by decide) (by decide)⟩

/-- C1: user b's list calls never return a record of user a; b's
category get and delete on a's category id answer exactly the one
not-found response that a nonexistent id answers (no existence leak),
and the store is untouched; and the task-by-id service operations for
b on a's task id all yield NotFound.  The uniqueness hypotheses are
MongoDB's uniqueness of `_id` within a collection. -/
theorem C1_ownership_isolation (verify : String → Option Nat) (store : Store)
    (header : Option String) (tok : String) (a b : Nat) (now : DateTime)
    (hx : extractToken header = some tok) (hv : verify tok = some b) (hab : a ≠ b)
    (c : Category) (hc : c ∈ store.categories) (hca : c.userId = a)
    (hcu : ∀ c' ∈ store.categories, c'.id = c.id → c' = c)
    (t : Task) (htm : t ∈ store.tasks) (hta : t.userId = a)
    (htu : ∀ t' ∈ store.tasks, t'.id = t.id → t' = t) :
    (∀ o ∈ (GETtasks verify store header now).tasks, o.task ≠ t) ∧
    (∀ c' ∈ (GETcategories verify store header).categories, c' ≠ c) ∧
    GETcategoryId verify store header c.id = categoryNotFoundResponse ∧
    (∀ j, (∀ c' ∈ store.categories, c'.id ≠ j) →
      GETcategoryId verify store header j = categoryNotFoundResponse) ∧
    DELETEcategoryId verify store header c.id
      = ⟨404, false, some "Category not found or does not belong to the user", store⟩ ∧
    (∀ j, (∀ c' ∈ store.categories, c'.id ≠ j) →
      DELETEcategoryId verify store header j
        = ⟨404, false, some "Category not found or does not belong to the user", store⟩) ∧
    getTaskSvc store b t.id = none ∧
    (∀ body, updateTaskSvc store b t.id body = .error .notFound) ∧
    deleteTaskSvc store b t.id = .error .notFound := by
  have hcnone : ∀ c' ∈ store.categories, (c'.id == c.id && c'.userId == b) = false := by
    intro c' hmem
    by_cases hid : c'.id = c.id
    · have hcc : c' = c := hcu c' hmem hid
      subst hcc
      simp [hca, hab]
    · simp [hid]
  have htnone : ∀ t' ∈ store.tasks, (t'.id == t.id && t'.userId == b) = false := by
    intro t' hmem
    by_cases hid : t'.id = t.id
    · have htt : t' = t := htu t' hmem hid
      subst htt
      simp [hta, hab]
    · simp [hid]
  have hfindc : store.categories.find? (fun c' => c'.id == c.id && c'.userId == b) = none :=
    List.find?_eq_none.2 fun x hxm => by simp [hcnone x hxm]
  have hfindt : store.tasks.find? (fun t' => t'.id == t.id && t'.userId == b) = none :=
    List.find?_eq_none.2 fun x hxm => by simp [htnone x hxm]
  refine ⟨?_, ?_, ?_, ?_, ?_, ?_, ?_, ?_, ?_⟩
  · intro o ho
    unfold GETtasks GETtasksAuthed at ho
    rw [hx] at ho
    simp only [hv] at ho
    rcases List.mem_map.1 ho with ⟨t', ht', rfl⟩
    rcases List.mem_filter.1 ht' with ⟨_, hbeq⟩
    intro hcontra
    have htt : t' = t := hcontra
    subst htt
    rw [hta] at hbeq
    exact hab (by simpa using hbeq)
  · intro c' hc'
    unfold GETcategories GETcategoriesAuthed at hc'
    rw [hx] at hc'
    simp only [hv] at hc'
    rcases List.mem_filter.1 hc' with ⟨_, hbeq⟩
    intro hcontra
    subst hcontra
    rw [hca] at hbeq
    exact hab (by simpa using hbeq)
  · unfold GETcategoryId GETcategoryIdAuthed
    rw [hx]
    simp only [hv, hfindc]
  · intro j hj
    unfold GETcategoryId GETcategoryIdAuthed
    rw [hx]
    have hfindj : store.categories.find? (fun c' => c'.id == j && c'.userId == b) = none :=
      List.find?_eq_none.2 fun x hxm => by simp [hj x hxm]
    simp only [hv, hfindj]
  · rw [DELETEcategoryId_eq verify store header c.id tok b hx hv,
      eraseFirstP_of_all_false _ _ hcnone]
    rfl
  · intro j hj
    have hjnone : ∀ c' ∈ store.categories, (c'.id == j && c'.userId == b) = false := by
      intro c' hmem
      simp [hj c' hmem]
    rw [DELETEcategoryId_eq verify store header j tok b hx hv,
      eraseFirstP_of_all_false _ _ hjnone]
    rfl
  · exact hfindt
  · intro body
    unfold updateTaskSvc
    rw [hfindt]
  · unfold deleteTaskSvc
    rw [eraseFirstP_of_all_false _ _ htnone]
    rfl

/-- A store where user 9 owns task id 1 and category id 2; user 7 is
the caller in the witness. -/
def c1store : Store :=
  ⟨[⟨1, 9, "t", "r", none, none, none, none, .medium⟩], [⟨2, 9, "Work", none⟩], 3⟩

theorem C1_ownership_isolation_witness :
    GETcategoryId vOk c1store (some "Bearer x") 2 = categoryNotFoundResponse ∧
    DELETEcategoryId vOk c1store (some "Bearer x") 2
      = ⟨404, false, some "Category not found or does not belong to the user", c1store⟩ ∧
    getTaskSvc c1store 7 1 = none ∧
    deleteTaskSvc c1store 7 1 = .error .notFound :=
  have h := C1_ownership_isolation vOk c1store (some "Bearer x") "x" 9 7 someNow
    (by decide) rfl (by decide)
    ⟨2, 9, "Work", none⟩ (by decide) rfl (by decide)
    ⟨1, 9, "t", "r", none, none, none, none, .medium⟩ (by decide) rfl (by decide)
  ⟨h.2.2.1, h.2.2.2.2.1, h.2.2.2.2.2.2.1, h.2.2.2.2.2.2.2.2⟩

end Todo

